import Mathlib

/-!
Verification of the Redux client state of the Walmart Sparkathon fraud-detection
dashboard (React/TypeScript). Each Redux slice reducer is embedded as a pure
Lean function on an explicit state record; JavaScript numbers are modelled as
rationals (ℚ), optional / nullable fields as `Option`, and JS arrays as lists.
Side effects on `localStorage` and dates are noted where the reducers perform
them; the state transformation itself is embedded faithfully.
-/

set_option maxHeartbeats 1000000

/-! ## Auth slice (src/frontend/src/store/slices/authSlice.ts) -/

/-- User role: 'admin' | 'analyst' | 'viewer'. -/
inductive Role where
  | admin
  | analyst
  | viewer
deriving Repr, DecidableEq

/-- User DTO from authSlice.ts. -/
structure User where
  id : String
  email : String
  name : String
  role : Role
  lastLogin : String
deriving Repr, DecidableEq

/-- AuthState from authSlice.ts. -/
structure AuthState where
  isAuthenticated : Bool
  user : Option User
  token : Option String
  loading : Bool
  error : Option String
deriving Repr, DecidableEq

/-- `initialState` of the auth slice. -/
def authInitialState : AuthState :=
  { isAuthenticated := false
    user := none
    token := none
    loading := false
    error := none }

/-- The actions of the auth slice.  `loginSuccess` / `restoreAuth` carry the
`{ user, token }` payload, `loginFailure` the error-message string. -/
inductive AuthAction where
  | loginStart
  | loginSuccess (user : User) (token : String)
  | loginFailure (message : String)
  | logout
  | clearError
  | restoreAuth (user : User) (token : String)
deriving Repr, DecidableEq

/-- The auth slice reducer.  `loginSuccess` also writes the token to
`localStorage` and `logout` removes it; those browser side effects are outside
the Redux state and are not part of the state transformation embedded here. -/
def authReducer (state : AuthState) (action : AuthAction) : AuthState :=
  match action with
  | .loginStart =>
      { state with loading := true, error := none }
  | .loginSuccess user token =>
      { state with
          isAuthenticated := true
          user := some user
          token := some token
          loading := false
          error := none }
  | .loginFailure message =>
      { state with
          isAuthenticated := false
          user := none
          token := none
          loading := false
          error := some message }
  | .logout =>
      { state with
          isAuthenticated := false
          user := none
          token := none
          loading := false
          error := none }
  | .clearError =>
      { state with error := none }
  | .restoreAuth user token =>
      { state with
          isAuthenticated := true
          user := some user
          token := some token }

/-! ## Transaction slice (src/frontend/src/store/slices/transactionSlice.ts) -/

/-- Payment method: 'card' | 'wallet' | 'bank_transfer'. -/
inductive PaymentMethod where
  | card
  | wallet
  | bank_transfer
deriving Repr, DecidableEq

/-- Transaction status: 'pending' | 'approved' | 'declined' | 'flagged'. -/
inductive TxStatus where
  | pending
  | approved
  | declined
  | flagged
deriving Repr, DecidableEq

/-- `location` field of a Transaction. -/
structure TxLocation where
  country : String
  city : String
  coordinates : ℚ × ℚ
deriving Repr, DecidableEq

/-- `deviceInfo` field of a Transaction. -/
structure DeviceInfo where
  deviceId : String
  ipAddress : String
  userAgent : String
deriving Repr, DecidableEq

/-- Transaction DTO from transactionSlice.ts. -/
structure Transaction where
  id : String
  userId : String
  amount : ℚ
  currency : String
  merchantName : String
  merchantCategory : String
  timestamp : String
  location : TxLocation
  paymentMethod : PaymentMethod
  deviceInfo : DeviceInfo
  status : TxStatus
  riskScore : ℚ
  fraudProbability : ℚ
  blockchainHash : Option String
deriving Repr, DecidableEq

/-- Alert type: 'high_risk' | 'anomaly' | 'blocked' | 'suspicious_pattern'. -/
inductive AlertType where
  | high_risk
  | anomaly
  | blocked
  | suspicious_pattern
deriving Repr, DecidableEq

/-- Severity: 'low' | 'medium' | 'high' | 'critical'. -/
inductive Severity where
  | low
  | medium
  | high
  | critical
deriving Repr, DecidableEq

/-- FraudAlert DTO from transactionSlice.ts. -/
structure FraudAlert where
  id : String
  transactionId : String
  alertType : AlertType
  severity : Severity
  message : String
  timestamp : String
  investigated : Bool
  falsePositive : Bool
deriving Repr, DecidableEq

/-- `filters` field of the transaction state. -/
structure TxFilters where
  status : List String
  riskLevel : String
  timeRange : String
  amountRange : ℚ × ℚ
deriving Repr, DecidableEq

/-- `Partial<TransactionState[filters]>`: each field optional; present fields
overwrite the corresponding filter (shallow object spread). -/
structure TxFiltersPatch where
  status : Option (List String)
  riskLevel : Option String
  timeRange : Option String
  amountRange : Option (ℚ × ℚ)
deriving Repr, DecidableEq

/-- TransactionState from transactionSlice.ts. -/
structure TransactionState where
  transactions : List Transaction
  realTimeTransactions : List Transaction
  alerts : List FraudAlert
  totalTransactions : ℚ
  totalAmount : ℚ
  averageRiskScore : ℚ
  loading : Bool
  error : Option String
  filters : TxFilters
deriving Repr, DecidableEq

/-- `initialState` of the transaction slice. -/
def transactionInitialState : TransactionState :=
  { transactions := []
    realTimeTransactions := []
    alerts := []
    totalTransactions := 0
    totalAmount := 0
    averageRiskScore := 0
    loading := false
    error := none
    filters :=
      { status := []
        riskLevel := "all"
        timeRange := "today"
        amountRange := (0, 10000) } }

/-- The actions of the transaction slice with their payloads. -/
inductive TransactionAction where
  | fetchTransactionsStart
  | fetchTransactionsSuccess (transactions : List Transaction) (totalCount : ℚ)
      (totalAmount : ℚ) (averageRiskScore : ℚ)
  | fetchTransactionsFailure (message : String)
  | addRealTimeTransaction (t : Transaction)
  | addFraudAlert (a : FraudAlert)
  | updateTransactionStatus (transactionId : String) (status : TxStatus)
  | markAlertInvestigated (alertId : String) (falsePositive : Bool)
  | updateFilters (patch : TxFiltersPatch)
  | clearRealTimeData
deriving Repr, DecidableEq

/-- `findIndex` followed by in-place field assignment: set the status of the
transaction at the first index whose id matches, if any. -/
def setTxStatusFirst (l : List Transaction) (tid : String) (st : TxStatus) :
    List Transaction :=
  match l.findIdx? (fun t => t.id = tid) with
  | none => l
  | some i =>
      match l[i]? with
      | none => l
      | some t => l.set i { t with status := st }

/-- `findIndex` followed by in-place field assignment on the alerts list. -/
def markAlertFirst (l : List FraudAlert) (aid : String) (fp : Bool) :
    List FraudAlert :=
  match l.findIdx? (fun a => a.id = aid) with
  | none => l
  | some i =>
      match l[i]? with
      | none => l
      | some a => l.set i { a with investigated := true, falsePositive := fp }

/-- Sum of risk scores, as in
`allTransactions.reduce((sum, t) => sum + t.riskScore, 0)`. -/
def riskScoreSum (l : List Transaction) : ℚ :=
  l.foldl (fun sum t => sum + t.riskScore) 0

/-- The transaction slice reducer. -/
def transactionReducer (state : TransactionState) (action : TransactionAction) :
    TransactionState :=
  match action with
  | .fetchTransactionsStart =>
      { state with loading := true, error := none }
  | .fetchTransactionsSuccess transactions totalCount totalAmount averageRiskScore =>
      { state with
          transactions := transactions
          totalTransactions := totalCount
          totalAmount := totalAmount
          averageRiskScore := averageRiskScore
          loading := false
          error := none }
  | .fetchTransactionsFailure message =>
      { state with loading := false, error := some message }
  | .addRealTimeTransaction t =>
      -- unshift, then keep only the last 50 real-time transactions
      let unshifted := t :: state.realTimeTransactions
      let realTime := if unshifted.length > 50 then unshifted.take 50 else unshifted
      -- statistics update and average recomputation over the updated lists
      let allTransactions := state.transactions ++ realTime
      { state with
          realTimeTransactions := realTime
          totalTransactions := state.totalTransactions + 1
          totalAmount := state.totalAmount + t.amount
          averageRiskScore := riskScoreSum allTransactions / allTransactions.length }
  | .addFraudAlert a =>
      let unshifted := a :: state.alerts
      let alerts := if unshifted.length > 100 then unshifted.take 100 else unshifted
      { state with alerts := alerts }
  | .updateTransactionStatus tid st =>
      { state with
          transactions := setTxStatusFirst state.transactions tid st
          realTimeTransactions := setTxStatusFirst state.realTimeTransactions tid st }
  | .markAlertInvestigated aid fp =>
      { state with alerts := markAlertFirst state.alerts aid fp }
  | .updateFilters patch =>
      { state with
          filters :=
            { status := patch.status.getD state.filters.status
              riskLevel := patch.riskLevel.getD state.filters.riskLevel
              timeRange := patch.timeRange.getD state.filters.timeRange
              amountRange := patch.amountRange.getD state.filters.amountRange } }
  | .clearRealTimeData =>
      { state with realTimeTransactions := [], alerts := [] }

/-! ## Fraud analytics slice (src/frontend/src/store/slices/fraudSlice.ts) -/

/-- Pattern type: 'velocity' | 'location' | 'amount' | 'merchant' | 'device'. -/
inductive PatternType where
  | velocity
  | location
  | amount
  | merchant
  | device
deriving Repr, DecidableEq

/-- One `geographicDistribution` entry of a FraudPattern. -/
structure GeoEntry where
  country : String
  count : ℚ
deriving Repr, DecidableEq

/-- FraudPattern DTO from fraudSlice.ts. -/
structure FraudPattern where
  id : String
  patternType : PatternType
  description : String
  frequency : ℚ
  successRate : ℚ
  averageAmount : ℚ
  lastSeen : String
  severity : Severity
  geographicDistribution : List GeoEntry
deriving Repr, DecidableEq

/-- One `dailyTrend` entry of FraudStats. -/
structure DailyTrendEntry where
  date : String
  fraudCount : ℚ
  blockedCount : ℚ
  falsePositives : ℚ
deriving Repr, DecidableEq

/-- One `hourlyDistribution` entry of FraudStats. -/
structure HourlyEntry where
  hour : ℚ
  fraudCount : ℚ
deriving Repr, DecidableEq

/-- One `riskDistribution` entry of FraudStats. -/
structure RiskEntry where
  riskLevel : Severity
  count : ℚ
  percentage : ℚ
deriving Repr, DecidableEq

/-- FraudStats DTO from fraudSlice.ts. -/
structure FraudStats where
  totalFraudulent : ℚ
  totalBlocked : ℚ
  falsePositives : ℚ
  accuracy : ℚ
  «precision» : ℚ
  «recall» : ℚ
  f1Score : ℚ
  dailyTrend : List DailyTrendEntry
  hourlyDistribution : List HourlyEntry
  riskDistribution : List RiskEntry
deriving Repr, DecidableEq

/-- `confusionMatrix` field of ModelPerformance. -/
structure ConfusionMatrix where
  truePositive : ℚ
  falsePositive : ℚ
  trueNegative : ℚ
  falseNegative : ℚ
deriving Repr, DecidableEq

/-- One `featureImportance` entry of ModelPerformance. -/
structure FeatureImportanceEntry where
  feature : String
  importance : ℚ
deriving Repr, DecidableEq

/-- ModelPerformance DTO from fraudSlice.ts. -/
structure ModelPerformance where
  modelVersion : String
  lastTraining : String
  trainingDataSize : ℚ
  accuracy : ℚ
  «precision» : ℚ
  «recall» : ℚ
  f1Score : ℚ
  auc : ℚ
  confusionMatrix : ConfusionMatrix
  featureImportance : List FeatureImportanceEntry
deriving Repr, DecidableEq

/-- Time range: 'day' | 'week' | 'month' | 'year'. -/
inductive TimeRange where
  | day
  | week
  | month
  | year
deriving Repr, DecidableEq

/-- FraudState from fraudSlice.ts. -/
structure FraudState where
  patterns : List FraudPattern
  stats : Option FraudStats
  modelPerformance : Option ModelPerformance
  timeRange : TimeRange
  loading : Bool
  error : Option String
  autoRefresh : Bool
  refreshInterval : ℚ
deriving Repr, DecidableEq

/-- `initialState` of the fraud slice. -/
def fraudInitialState : FraudState :=
  { patterns := []
    stats := none
    modelPerformance := none
    timeRange := .day
    loading := false
    error := none
    autoRefresh := true
    refreshInterval := 30 }

/-- `updateStatsIncremental` payload: each increment is optional and defaults
to 0. -/
structure StatsIncrement where
  newFraudulent : Option ℚ
  newBlocked : Option ℚ
  newFalsePositive : Option ℚ
deriving Repr, DecidableEq

/-- The actions of the fraud slice with their payloads. -/
inductive FraudAction where
  | fetchAnalyticsStart
  | fetchPatternsSuccess (patterns : List FraudPattern)
  | fetchStatsSuccess (stats : FraudStats)
  | fetchModelPerformanceSuccess (mp : ModelPerformance)
  | fetchAnalyticsFailure (message : String)
  | setTimeRange (tr : TimeRange)
  | toggleAutoRefresh
  | setRefreshInterval (i : ℚ)
  | addNewPattern (p : FraudPattern)
  | updateStatsIncremental (inc : StatsIncrement)
  | clearAnalytics
deriving Repr, DecidableEq

/-- `findIndex` followed by in-place replacement on the patterns list. -/
def setPatternFirst (l : List FraudPattern) (p : FraudPattern) :
    Option (List FraudPattern) :=
  match l.findIdx? (fun q => q.id = p.id) with
  | none => none
  | some i => some (l.set i p)

/-- The fraud slice reducer. -/
def fraudReducer (state : FraudState) (action : FraudAction) : FraudState :=
  match action with
  | .fetchAnalyticsStart =>
      { state with loading := true, error := none }
  | .fetchPatternsSuccess patterns =>
      { state with patterns := patterns, loading := false, error := none }
  | .fetchStatsSuccess stats =>
      { state with stats := some stats, loading := false, error := none }
  | .fetchModelPerformanceSuccess mp =>
      { state with modelPerformance := some mp, loading := false, error := none }
  | .fetchAnalyticsFailure message =>
      { state with loading := false, error := some message }
  | .setTimeRange tr =>
      { state with timeRange := tr }
  | .toggleAutoRefresh =>
      { state with autoRefresh := !state.autoRefresh }
  | .setRefreshInterval i =>
      { state with refreshInterval := i }
  | .addNewPattern p =>
      match setPatternFirst state.patterns p with
      | some updated => { state with patterns := updated }
      | none =>
          let unshifted := p :: state.patterns
          let patterns := if unshifted.length > 50 then unshifted.take 50 else unshifted
          { state with patterns := patterns }
  | .updateStatsIncremental inc =>
      match state.stats with
      | none => state
      | some st =>
          let totalFraudulent := st.totalFraudulent + inc.newFraudulent.getD 0
          let totalBlocked := st.totalBlocked + inc.newBlocked.getD 0
          let falsePositives := st.falsePositives + inc.newFalsePositive.getD 0
          -- recalculate accuracy (avoid division by zero)
          let total := totalFraudulent + falsePositives
          let accuracy :=
            if total > 0 then totalFraudulent / total * 100 else st.accuracy
          { state with
              stats := some
                { st with
                    totalFraudulent := totalFraudulent
                    totalBlocked := totalBlocked
                    falsePositives := falsePositives
                    accuracy := accuracy } }
  | .clearAnalytics =>
      { state with
          patterns := []
          stats := none
          modelPerformance := none
          error := none }

/-! ## Security settings slice (src/frontend/src/store/slices/securitySlice.ts) -/

/-- Rule type: 'threshold' | 'pattern' | 'ml_model' | 'blacklist' | 'whitelist'. -/
inductive RuleType where
  | threshold
  | pattern
  | ml_model
  | blacklist
  | whitelist
deriving Repr, DecidableEq

/-- Rule action: 'block' | 'flag' | 'review' | 'alert'. -/
inductive RuleAction where
  | block
  | flag
  | review
  | alert
deriving Repr, DecidableEq

/-- SecurityRule DTO from securitySlice.ts.  The `parameters` field is typed
`{ [key: string]: any }` in the source and is never inspected by any reducer;
it is carried as an opaque key–value association list. -/
structure SecurityRule where
  id : String
  name : String
  description : String
  enabled : Bool
  ruleType : RuleType
  parameters : List (String × String)
  priority : ℚ
  actions : List RuleAction
  lastModified : String
  createdBy : String
deriving Repr, DecidableEq

/-- `email` field of NotificationSettings. -/
structure EmailSettings where
  enabled : Bool
  addresses : List String
  severity : List Severity
deriving Repr, DecidableEq

/-- `sms` field of NotificationSettings (severity restricted to high/critical
in the source type; the reducers never inspect it). -/
structure SmsSettings where
  enabled : Bool
  phoneNumbers : List String
  severity : List Severity
deriving Repr, DecidableEq

/-- `slack` field of NotificationSettings. -/
structure SlackSettings where
  enabled : Bool
  webhookUrl : String
  channel : String
  severity : List Severity
deriving Repr, DecidableEq

/-- `inApp` field of NotificationSettings. -/
structure InAppSettings where
  enabled : Bool
  showPopups : Bool
  severity : List Severity
deriving Repr, DecidableEq

/-- NotificationSettings DTO from securitySlice.ts. -/
structure NotificationSettings where
  email : EmailSettings
  sms : SmsSettings
  slack : SlackSettings
  inApp : InAppSettings
deriving Repr, DecidableEq

/-- Retraining schedule: 'daily' | 'weekly' | 'monthly'. -/
inductive Schedule where
  | daily
  | weekly
  | monthly
deriving Repr, DecidableEq

/-- One `features` entry of ModelSettings. -/
structure ModelFeature where
  name : String
  enabled : Bool
  weight : ℚ
deriving Repr, DecidableEq

/-- `performanceTarget` field of ModelSettings. -/
structure PerformanceTarget where
  minAccuracy : ℚ
  maxFalsePositives : ℚ
deriving Repr, DecidableEq

/-- ModelSettings DTO from securitySlice.ts (the `retirningEnabled` typo is the
source's own field name). -/
structure ModelSettings where
  currentModel : String
  availableModels : List String
  threshold : ℚ
  retirningEnabled : Bool
  retrainingSchedule : Schedule
  features : List ModelFeature
  autoTuning : Bool
  performanceTarget : PerformanceTarget
deriving Repr, DecidableEq

/-- `rateLimit` field of ApiSettings. -/
structure RateLimit where
  enabled : Bool
  requestsPerMinute : ℚ
  burstLimit : ℚ
deriving Repr, DecidableEq

/-- `authentication` field of ApiSettings. -/
structure AuthSettings where
  tokenExpiry : ℚ
  requireMFA : Bool
  ipWhitelist : List String
deriving Repr, DecidableEq

/-- Blockchain network: 'mainnet' | 'testnet'. -/
inductive Network where
  | mainnet
  | testnet
deriving Repr, DecidableEq

/-- `blockchain` field of ApiSettings. -/
structure BlockchainSettings where
  enabled : Bool
  network : Network
  gasLimit : ℚ
  confirmations : ℚ
deriving Repr, DecidableEq

/-- `webhooks` field of ApiSettings. -/
structure Webhooks where
  fraudDetected : String
  transactionBlocked : String
  modelRetrained : String
deriving Repr, DecidableEq

/-- ApiSettings DTO from securitySlice.ts. -/
structure ApiSettings where
  rateLimit : RateLimit
  authentication : AuthSettings
  blockchain : BlockchainSettings
  webhooks : Webhooks
deriving Repr, DecidableEq

/-- `Partial<NotificationSettings>`: the `{ ...state, ...payload }` spread is
shallow, so each present top-level field replaces the whole sub-object. -/
structure NotificationSettingsPatch where
  email : Option EmailSettings
  sms : Option SmsSettings
  slack : Option SlackSettings
  inApp : Option InAppSettings
deriving Repr, DecidableEq

/-- `Partial<ModelSettings>` (shallow spread at the top level). -/
structure ModelSettingsPatch where
  currentModel : Option String
  availableModels : Option (List String)
  threshold : Option ℚ
  retirningEnabled : Option Bool
  retrainingSchedule : Option Schedule
  features : Option (List ModelFeature)
  autoTuning : Option Bool
  performanceTarget : Option PerformanceTarget
deriving Repr, DecidableEq

/-- `Partial<ApiSettings>` (shallow spread at the top level). -/
structure ApiSettingsPatch where
  rateLimit : Option RateLimit
  authentication : Option AuthSettings
  blockchain : Option BlockchainSettings
  webhooks : Option Webhooks
deriving Repr, DecidableEq

/-- SecurityState from securitySlice.ts. -/
structure SecurityState where
  rules : List SecurityRule
  notifications : NotificationSettings
  modelSettings : ModelSettings
  apiSettings : ApiSettings
  loading : Bool
  error : Option String
  unsavedChanges : Bool
  lastSaved : Option String
deriving Repr, DecidableEq

/-- `initialState` of the security slice. -/
def securityInitialState : SecurityState :=
  { rules := []
    notifications :=
      { email := { enabled := true, addresses := [], severity := [.high, .critical] }
        sms := { enabled := false, phoneNumbers := [], severity := [.critical] }
        slack :=
          { enabled := false
            webhookUrl := ""
            channel := "#security-alerts"
            severity := [.medium, .high, .critical] }
        inApp :=
          { enabled := true
            showPopups := true
            severity := [.low, .medium, .high, .critical] } }
    modelSettings :=
      { currentModel := "fraud_detector_v2.1"
        availableModels := ["fraud_detector_v2.1", "fraud_detector_v2.0"]
        threshold := 7/10
        retirningEnabled := true
        retrainingSchedule := .weekly
        features := []
        autoTuning := false
        performanceTarget := { minAccuracy := 95, maxFalsePositives := 5 } }
    apiSettings :=
      { rateLimit := { enabled := true, requestsPerMinute := 1000, burstLimit := 1500 }
        authentication := { tokenExpiry := 24, requireMFA := true, ipWhitelist := [] }
        blockchain :=
          { enabled := false, network := .testnet, gasLimit := 21000, confirmations := 6 }
        webhooks :=
          { fraudDetected := "", transactionBlocked := "", modelRetrained := "" } }
    loading := false
    error := none
    unsavedChanges := false
    lastSaved := none }

/-- The actions of the security slice with their payloads.  `saveSettingsSuccess`
carries the `new Date().toISOString()` timestamp read by the reducer as a
payload-like input. -/
inductive SecurityAction where
  | fetchSettingsStart
  | fetchSettingsSuccess (rules : List SecurityRule) (notifications : NotificationSettings)
      (modelSettings : ModelSettings) (apiSettings : ApiSettings)
  | fetchSettingsFailure (message : String)
  | addSecurityRule (rule : SecurityRule)
  | updateSecurityRule (rule : SecurityRule)
  | deleteSecurityRule (id : String)
  | toggleSecurityRule (id : String)
  | updateNotificationSettings (patch : NotificationSettingsPatch)
  | updateModelSettings (patch : ModelSettingsPatch)
  | updateApiSettings (patch : ApiSettingsPatch)
  | saveSettingsSuccess (now : String)
  | saveSettingsFailure (message : String)
  | discardChanges
  | clearError
  | updateFraudThreshold (threshold : ℚ)
deriving Repr, DecidableEq

/-- `findIndex` on the rules list by the payload rule's id. -/
def findRuleIdx (rules : List SecurityRule) (id : String) : Option Nat :=
  rules.findIdx? (fun rule => rule.id = id)

/-- The security slice reducer. -/
def securityReducer (state : SecurityState) (action : SecurityAction) :
    SecurityState :=
  match action with
  | .fetchSettingsStart =>
      { state with loading := true, error := none }
  | .fetchSettingsSuccess rules notifications modelSettings apiSettings =>
      { state with
          rules := rules
          notifications := notifications
          modelSettings := modelSettings
          apiSettings := apiSettings
          loading := false
          error := none
          unsavedChanges := false }
  | .fetchSettingsFailure message =>
      { state with loading := false, error := some message }
  | .addSecurityRule rule =>
      { state with rules := state.rules ++ [rule], unsavedChanges := true }
  | .updateSecurityRule rule =>
      match findRuleIdx state.rules rule.id with
      | none => state
      | some i =>
          { state with rules := state.rules.set i rule, unsavedChanges := true }
  | .deleteSecurityRule id =>
      { state with
          rules := state.rules.filter (fun rule => rule.id ≠ id)
          unsavedChanges := true }
  | .toggleSecurityRule id =>
      match findRuleIdx state.rules id with
      | none => state
      | some i =>
          match state.rules[i]? with
          | none => state
          | some rule =>
              { state with
                  rules := state.rules.set i { rule with enabled := !rule.enabled }
                  unsavedChanges := true }
  | .updateNotificationSettings patch =>
      { state with
          notifications :=
            { email := patch.email.getD state.notifications.email
              sms := patch.sms.getD state.notifications.sms
              slack := patch.slack.getD state.notifications.slack
              inApp := patch.inApp.getD state.notifications.inApp }
          unsavedChanges := true }
  | .updateModelSettings patch =>
      { state with
          modelSettings :=
            { currentModel := patch.currentModel.getD state.modelSettings.currentModel
              availableModels := patch.availableModels.getD state.modelSettings.availableModels
              threshold := patch.threshold.getD state.modelSettings.threshold
              retirningEnabled := patch.retirningEnabled.getD state.modelSettings.retirningEnabled
              retrainingSchedule := patch.retrainingSchedule.getD state.modelSettings.retrainingSchedule
              features := patch.features.getD state.modelSettings.features
              autoTuning := patch.autoTuning.getD state.modelSettings.autoTuning
              performanceTarget := patch.performanceTarget.getD state.modelSettings.performanceTarget }
          unsavedChanges := true }
  | .updateApiSettings patch =>
      { state with
          apiSettings :=
            { rateLimit := patch.rateLimit.getD state.apiSettings.rateLimit
              authentication := patch.authentication.getD state.apiSettings.authentication
              blockchain := patch.blockchain.getD state.apiSettings.blockchain
              webhooks := patch.webhooks.getD state.apiSettings.webhooks }
          unsavedChanges := true }
  | .saveSettingsSuccess now =>
      { state with unsavedChanges := false, lastSaved := some now, error := none }
  | .saveSettingsFailure message =>
      { state with error := some message }
  | .discardChanges =>
      { state with unsavedChanges := false }
  | .clearError =>
      { state with error := none }
  | .updateFraudThreshold threshold =>
      { state with
          modelSettings := { state.modelSettings with threshold := threshold }
          unsavedChanges := true }

/-! ## Root store

`src/frontend/src/store/store.ts` is imported by `index.tsx` and
`hooks/redux.ts` but its file is not among the available sources; the store
composition is therefore modelled from the spec. -/

/-- Modelled from the spec: the Redux store configuration
(src/frontend/src/store/store.ts, referenced from index.tsx and
hooks/redux.ts, is not among the available sources).  Per the spec glossary —
"Slice: a Redux state partition with its own reducer, here one per feature
area (auth, transactions, fraud, security)" — the root state combines the four
slice states. -/
structure RootState where
  auth : AuthState
  transactions : TransactionState
  fraud : FraudState
  security : SecurityState
deriving Repr, DecidableEq

/-- A dispatched action belongs to exactly one slice. -/
inductive RootAction where
  | auth (a : AuthAction)
  | transactions (a : TransactionAction)
  | fraud (a : FraudAction)
  | security (a : SecurityAction)
deriving Repr, DecidableEq

/-- The initial root state combines the slices' initial states. -/
def rootInitialState : RootState :=
  { auth := authInitialState
    transactions := transactionInitialState
    fraud := fraudInitialState
    security := securityInitialState }

/-- Modelled from the spec: the combined root reducer.  Each slice has its own
reducer (spec glossary), so a `createSlice` reducer reacts only to its own
slice's actions and returns its partition unchanged on every other action. -/
def rootReducer (state : RootState) (action : RootAction) : RootState :=
  match action with
  | .auth a => { state with auth := authReducer state.auth a }
  | .transactions a => { state with transactions := transactionReducer state.transactions a }
  | .fraud a => { state with fraud := fraudReducer state.fraud a }
  | .security a => { state with security := securityReducer state.security a }

/-- Dispatching a sequence of actions from a given state. -/
def applyRootActions (state : RootState) (actions : List RootAction) : RootState :=
  actions.foldl rootReducer state

/-- A store state is reachable when some dispatched action sequence produces it
from the initial state. -/
def ReachableRoot (state : RootState) : Prop :=
  ∃ actions : List RootAction, applyRootActions rootInitialState actions = state

/-- Dispatching a sequence of transaction actions (the only actions the
transaction slice reducer reacts to) from a given slice state. -/
def applyTransactionActions (state : TransactionState)
    (actions : List TransactionAction) : TransactionState :=
  actions.foldl transactionReducer state

/-! ## Login error handling (src/frontend/src/pages/Login.tsx, handleSubmit) -/

/-- The error response observed in the catch block of `handleSubmit`:
`error.response` may be absent (network failure), `error.response.data.message`
may be absent, and `error.response.status` is the HTTP status code. -/
structure LoginErrorResponse where
  message : Option String
  status : Int
deriving Repr, DecidableEq

/-- The error-message selection of the catch block in `handleSubmit`
(Login.tsx lines 115-129).  `if (error.response?.data?.message)` tests JS
truthiness, so a present but empty message string is skipped; `undefined`
comparisons with 401 / 500 are false when there is no response. -/
def loginErrorMessage (response : Option LoginErrorResponse) : String :=
  let defaultMsg := "Login failed. Please try again."
  match response with
  | none => defaultMsg
  | some r =>
      match r.message with
      | some m =>
          if m = "" then
            -- empty string is falsy in JS: fall through to the status checks
            if r.status = 401 then "Invalid email or password"
            else if r.status ≥ 500 then "Server error. Please try again later."
            else defaultMsg
          else m
      | none =>
          if r.status = 401 then "Invalid email or password"
          else if r.status ≥ 500 then "Server error. Please try again later."
          else defaultMsg

/-- The actions dispatched by the catch block of `handleSubmit`: a single
`loginFailure` carrying the selected message, with no retry. -/
def loginCatchDispatch (response : Option LoginErrorResponse) : List AuthAction :=
  [.loginFailure (loginErrorMessage response)]

/-! ## Polling timers (Dashboard.tsx, FraudAnalytics.tsx, TransactionMonitor)

The browser timer table is modelled as an environment of active interval
timers; `setInterval` allocates a fresh id for a given interval in
milliseconds, `clearInterval` removes an id.  Each page effect is the pair of
its mount step and the cleanup function it returns to React. -/

/-- The set of live interval timers: each active entry is (timer id,
interval in milliseconds); `nextId` is the next fresh id. -/
structure TimerEnv where
  nextId : Nat
  active : List (Nat × Nat)
deriving Repr, DecidableEq

/-- `setInterval(cb, ms)`: allocate a fresh timer id for the interval. -/
def setIntervalTimer (env : TimerEnv) (intervalMs : Nat) : Nat × TimerEnv :=
  (env.nextId,
   { nextId := env.nextId + 1, active := (env.nextId, intervalMs) :: env.active })

/-- `clearInterval(id)`: remove the timer with that id. -/
def clearIntervalTimer (env : TimerEnv) (id : Nat) : TimerEnv :=
  { env with active := env.active.filter (fun t => t.1 ≠ id) }

/-- All live timer ids are below `nextId` (true of every environment built
from an empty table by these two operations). -/
def TimerEnv.FreshIds (env : TimerEnv) : Prop :=
  ∀ t ∈ env.active, t.1 < env.nextId

/-- The Dashboard effect (Dashboard.tsx lines 67-80): creates `updateTimer`
with `setInterval(..., 5000)` and returns `() => clearInterval(updateTimer)`
as its cleanup. -/
def dashboardEffect (env : TimerEnv) : TimerEnv × (TimerEnv → TimerEnv) :=
  let (updateTimer, env') := setIntervalTimer env 5000
  (env', fun e => clearIntervalTimer e updateTimer)

/-- The FraudAnalytics auto-refresh effect (FraudAnalytics.tsx lines 62-71):
when `autoRefresh` is off it returns early with no timer and no cleanup
(modelled as the identity cleanup); otherwise it creates `refreshTimer` with
`setInterval(..., 30000)` and returns `() => clearInterval(refreshTimer)`. -/
def fraudAnalyticsRefreshEffect (autoRefresh : Bool) (env : TimerEnv) :
    TimerEnv × (TimerEnv → TimerEnv) :=
  if !autoRefresh then (env, fun e => e)
  else
    let (refreshTimer, env') := setIntervalTimer env 30000
    (env', fun e => clearIntervalTimer e refreshTimer)

/-- The TransactionMonitor auto-refresh effect (TransactionMonitor page,
lines 63-74): same shape with `setInterval(..., 2000)`. -/
def transactionMonitorRefreshEffect (autoRefresh : Bool) (env : TimerEnv) :
    TimerEnv × (TimerEnv → TimerEnv) :=
  if !autoRefresh then (env, fun e => e)
  else
    let (refreshTimer, env') := setIntervalTimer env 2000
    (env', fun e => clearIntervalTimer e refreshTimer)

/-! ## Sample values for concrete evaluations -/

/-- A concrete transaction used to evaluate the reducers. -/
def txSample : Transaction :=
  { id := "tx-1"
    userId := "user-1"
    amount := 100
    currency := "USD"
    merchantName := "Acme"
    merchantCategory := "retail"
    timestamp := "2025-01-01T00:00:00Z"
    location := { country := "US", city := "NYC", coordinates := (40, -74) }
    paymentMethod := .card
    deviceInfo := { deviceId := "dev-1", ipAddress := "10.0.0.1", userAgent := "UA" }
    status := .pending
    riskScore := 10
    fraudProbability := 1/10
    blockchainHash := none }

/-- A concrete security rule used to evaluate the security reducer. -/
def ruleSample : SecurityRule :=
  { id := "rule-1"
    name := "High amount"
    description := "Flag transactions above a threshold"
    enabled := true
    ruleType := .threshold
    parameters := [("maxAmount", "5000")]
    priority := 5
    actions := [.flag]
    lastModified := "2025-01-01T00:00:00Z"
    createdBy := "admin" }

/-- A security state holding exactly `ruleSample`, with no unsaved changes. -/
def ruleState : SecurityState :=
  { securityInitialState with rules := [ruleSample] }

/-- Concrete fraud statistics used to evaluate `updateStatsIncremental`. -/
def statsSample : FraudStats :=
  { totalFraudulent := 3
    totalBlocked := 2
    falsePositives := 1
    accuracy := 50
    «precision» := 90
    «recall» := 80
    f1Score := 85
    dailyTrend := []
    hourlyDistribution := []
    riskDistribution := [] }

/-- A fraud state whose `stats` is `some statsSample`. -/
def fraudStatsState : FraudState :=
  { fraudInitialState with stats := some statsSample }

/-- C2: dispatching loginSuccess authenticates with the payload user/token,
clears loading and error. -/
theorem loginSuccess_sets_authenticated (s : AuthState) (u : User) (t : String) :
    authReducer s (.loginSuccess u t) =
      { isAuthenticated := true
        user := some u
        token := some t
        loading := false
        error := none } := rfl

/-- C1 counterexample: dispatching logout does not reset every slice.  From the
initial store, after one real-time transaction is added, logout leaves the
transaction slice different from its initial value (the claim as stated is
false at this reachable state). -/
theorem logout_clears_every_slice_false :
    ¬ (∀ s : RootState, ReachableRoot s →
        (rootReducer s (.auth .logout)).auth = authInitialState ∧
        (rootReducer s (.auth .logout)).transactions = transactionInitialState ∧
        (rootReducer s (.auth .logout)).security = securityInitialState) := by
  intro h
  have hreach :
      ReachableRoot (applyRootActions rootInitialState
        [.transactions (.addRealTimeTransaction txSample)]) :=
    ⟨[.transactions (.addRealTimeTransaction txSample)], rfl⟩
  have htx := (h _ hreach).2.1
  have hlist := congrArg TransactionState.realTimeTransactions htx
  simp [applyRootActions, rootReducer, transactionReducer,
    rootInitialState, transactionInitialState] at hlist

/-- C1 amended: dispatching logout resets the auth slice to its initial value
and leaves the transaction, fraud and security slices unchanged. -/
theorem logout_clears_only_auth_slice (s : RootState) :
    rootReducer s (.auth .logout) = { s with auth := authInitialState } := rfl

/-- C4: each fetch-failure action stores exactly the payload string in the
slice's error field, clears loading, and leaves every other field of the slice
unchanged. -/
theorem fetch_failure_sets_error_string (msg : String) :
    (∀ s : TransactionState, transactionReducer s (.fetchTransactionsFailure msg) =
        { s with loading := false, error := some msg }) ∧
    (∀ s : FraudState, fraudReducer s (.fetchAnalyticsFailure msg) =
        { s with loading := false, error := some msg }) ∧
    (∀ s : SecurityState, securityReducer s (.fetchSettingsFailure msg) =
        { s with loading := false, error := some msg }) :=
  ⟨fun _ => rfl, fun _ => rfl, fun _ => rfl⟩

/-- C6: updateStatsIncremental is the identity when stats is null; otherwise it
adds the optional increments (defaulting to 0) to the three counters and
recomputes accuracy as totalFraudulent / (totalFraudulent + falsePositives) * 100
only when that denominator is positive, keeping the previous accuracy
otherwise, while the rest of the state is unchanged. -/
theorem updateStatsIncremental_guards_division (s : FraudState) (inc : StatsIncrement) :
    (s.stats = none → fraudReducer s (.updateStatsIncremental inc) = s) ∧
    (∀ st, s.stats = some st →
      fraudReducer s (.updateStatsIncremental inc) =
        { s with stats := some { st with
                    totalFraudulent := st.totalFraudulent + inc.newFraudulent.getD 0
                    totalBlocked := st.totalBlocked + inc.newBlocked.getD 0
                    falsePositives := st.falsePositives + inc.newFalsePositive.getD 0
                    accuracy :=
                      if st.totalFraudulent + inc.newFraudulent.getD 0 +
                          (st.falsePositives + inc.newFalsePositive.getD 0) > 0 then
                        (st.totalFraudulent + inc.newFraudulent.getD 0) /
                          (st.totalFraudulent + inc.newFraudulent.getD 0 +
                            (st.falsePositives + inc.newFalsePositive.getD 0)) * 100
                      else st.accuracy } }) := by
  constructor
  · intro h
    simp [fraudReducer, h]
  · intro st h
    simp [fraudReducer, h]

/-- C6 witness: the theorem evaluated at the initial state (null stats) and at
a state with stats 3/2/1, incremented by one fraudulent detection. -/
theorem updateStatsIncremental_guards_division_witness :
    fraudReducer fraudInitialState
        (.updateStatsIncremental ⟨some 1, none, none⟩) = fraudInitialState ∧
    fraudReducer fraudStatsState (.updateStatsIncremental ⟨some 1, none, none⟩) =
      { fraudStatsState with
          stats := some { statsSample with totalFraudulent := 4, accuracy := 80 } } := by
  constructor
  · exact (updateStatsIncremental_guards_division fraudInitialState _).1 rfl
  · have h := (updateStatsIncremental_guards_division fraudStatsState
      ⟨some 1, none, none⟩).2 statsSample rfl
    rw [h]
    norm_num [statsSample]

/-- `findRuleIdx` finds an index whenever some rule carries the id. -/
theorem findRuleIdx_isSome_of_mem {rules : List SecurityRule} {id : String}
    (h : ∃ q ∈ rules, q.id = id) : (findRuleIdx rules id).isSome := by
  rcases h with ⟨q, hmem, hid⟩
  cases hfi : findRuleIdx rules id with
  | some i => rfl
  | none =>
      unfold findRuleIdx at hfi
      have hall := List.findIdx?_eq_none_iff.mp hfi q hmem
      simp [hid] at hall

/-- `findRuleIdx` finds nothing when no rule carries the id. -/
theorem findRuleIdx_none_of_not_mem {rules : List SecurityRule} {id : String}
    (h : ∀ q ∈ rules, q.id ≠ id) : findRuleIdx rules id = none := by
  unfold findRuleIdx
  exact List.findIdx?_eq_none_iff.mpr (fun q hq => by simpa using h q hq)

/-- A found index is within the rules list. -/
theorem findRuleIdx_lt_length {rules : List SecurityRule} {id : String} {i : Nat}
    (h : findRuleIdx rules id = some i) : i < rules.length := by
  unfold findRuleIdx at h
  exact (List.findIdx?_eq_some_iff_getElem.mp h).1

/-- C3: every user-edit action of the security slice records unsaved changes
(for updateSecurityRule and toggleSecurityRule, when a rule with the payload id
exists), and the only actions that set unsavedChanges back to false are
fetchSettingsSuccess, saveSettingsSuccess and discardChanges. -/
theorem unsavedChanges_lifecycle (s : SecurityState) :
    (∀ r, (securityReducer s (.addSecurityRule r)).unsavedChanges = true) ∧
    (∀ id, (securityReducer s (.deleteSecurityRule id)).unsavedChanges = true) ∧
    (∀ r, (∃ q ∈ s.rules, q.id = r.id) →
      (securityReducer s (.updateSecurityRule r)).unsavedChanges = true) ∧
    (∀ id, (∃ q ∈ s.rules, q.id = id) →
      (securityReducer s (.toggleSecurityRule id)).unsavedChanges = true) ∧
    (∀ p, (securityReducer s (.updateNotificationSettings p)).unsavedChanges = true) ∧
    (∀ p, (securityReducer s (.updateModelSettings p)).unsavedChanges = true) ∧
    (∀ p, (securityReducer s (.updateApiSettings p)).unsavedChanges = true) ∧
    (∀ q, (securityReducer s (.updateFraudThreshold q)).unsavedChanges = true) ∧
    (∀ rules n m api,
      (securityReducer s (.fetchSettingsSuccess rules n m api)).unsavedChanges = false) ∧
    (∀ now, (securityReducer s (.saveSettingsSuccess now)).unsavedChanges = false) ∧
    ((securityReducer s .discardChanges).unsavedChanges = false) ∧
    (∀ a, s.unsavedChanges = true → (securityReducer s a).unsavedChanges = false →
      (∃ rules n m api, a = .fetchSettingsSuccess rules n m api) ∨
      (∃ now, a = .saveSettingsSuccess now) ∨ a = .discardChanges) := by
  refine ⟨fun r => rfl, fun id => rfl, ?_, ?_, fun p => rfl, fun p => rfl, fun p => rfl,
    fun q => rfl, fun rules n m api => rfl, fun now => rfl, rfl, ?_⟩
  · intro r hr
    obtain ⟨i, hi⟩ := Option.isSome_iff_exists.mp (findRuleIdx_isSome_of_mem hr)
    simp [securityReducer, hi]
  · intro id hid
    obtain ⟨i, hi⟩ := Option.isSome_iff_exists.mp (findRuleIdx_isSome_of_mem hid)
    have hlt := findRuleIdx_lt_length hi
    simp [securityReducer, hi, List.getElem?_eq_getElem hlt]
  · intro a htrue hfalse
    cases a with
    | fetchSettingsStart => simp [securityReducer, htrue] at hfalse
    | fetchSettingsSuccess rules n m api => exact Or.inl ⟨rules, n, m, api, rfl⟩
    | fetchSettingsFailure msg => simp [securityReducer, htrue] at hfalse
    | addSecurityRule r => simp [securityReducer] at hfalse
    | updateSecurityRule r =>
        cases hfi : findRuleIdx s.rules r.id with
        | none => simp [securityReducer, hfi, htrue] at hfalse
        | some i => simp [securityReducer, hfi] at hfalse
    | deleteSecurityRule id => simp [securityReducer] at hfalse
    | toggleSecurityRule id =>
        cases hfi : findRuleIdx s.rules id with
        | none => simp [securityReducer, hfi, htrue] at hfalse
        | some i =>
            cases hget : s.rules[i]? with
            | none => simp [securityReducer, hfi, hget, htrue] at hfalse
            | some rule => simp [securityReducer, hfi, hget] at hfalse
    | updateNotificationSettings p => simp [securityReducer] at hfalse
    | updateModelSettings p => simp [securityReducer] at hfalse
    | updateApiSettings p => simp [securityReducer] at hfalse
    | saveSettingsSuccess now => exact Or.inr (Or.inl ⟨now, rfl⟩)
    | saveSettingsFailure msg => simp [securityReducer, htrue] at hfalse
    | discardChanges => exact Or.inr (Or.inr rfl)
    | clearError => simp [securityReducer, htrue] at hfalse
    | updateFraudThreshold q => simp [securityReducer] at hfalse

/-- C3 witness: evaluated on a state holding one rule named "rule-1": update and
toggle on the present id record unsaved changes, and discardChanges is among
the actions allowed to clear the flag. -/
theorem unsavedChanges_lifecycle_witness :
    (securityReducer ruleState (.updateSecurityRule ruleSample)).unsavedChanges = true ∧
    (securityReducer ruleState (.toggleSecurityRule "rule-1")).unsavedChanges = true ∧
    ((∃ rules n m api,
        SecurityAction.discardChanges = SecurityAction.fetchSettingsSuccess rules n m api) ∨
      (∃ now, SecurityAction.discardChanges = SecurityAction.saveSettingsSuccess now) ∨
      SecurityAction.discardChanges = SecurityAction.discardChanges) := by
  refine ⟨?_, ?_, ?_⟩
  · exact (unsavedChanges_lifecycle ruleState).2.2.1 ruleSample
      ⟨ruleSample, by simp [ruleState], rfl⟩
  · exact (unsavedChanges_lifecycle ruleState).2.2.2.1 "rule-1"
      ⟨ruleSample, by simp [ruleState], rfl⟩
  · exact (unsavedChanges_lifecycle
      { ruleState with unsavedChanges := true }).2.2.2.2.2.2.2.2.2.2.2
      .discardChanges rfl rfl

/-- C8: when no rule carries the payload id, updateSecurityRule and
toggleSecurityRule leave the whole security state unchanged, while
deleteSecurityRule still sets unsavedChanges although the rules list is
unchanged. -/
theorem missing_rule_id_frame (s : SecurityState) (id : String)
    (h : ∀ q ∈ s.rules, q.id ≠ id) :
    (∀ r : SecurityRule, r.id = id → securityReducer s (.updateSecurityRule r) = s) ∧
    securityReducer s (.toggleSecurityRule id) = s ∧
    securityReducer s (.deleteSecurityRule id) = { s with unsavedChanges := true } := by
  have hnone := findRuleIdx_none_of_not_mem h
  refine ⟨?_, ?_, ?_⟩
  · intro r hr
    rw [← hr] at hnone
    simp [securityReducer, hnone]
  · simp [securityReducer, hnone]
  · have hfilter : s.rules.filter (fun rule => rule.id ≠ id) = s.rules :=
      List.filter_eq_self.mpr (fun q hq => by simpa using h q hq)
    simp only [securityReducer]
    rw [hfilter]

/-- C8 witness: evaluated on the initial security state (no rules) with the
absent id "rule-x". -/
theorem missing_rule_id_frame_witness :
    securityReducer securityInitialState
        (.updateSecurityRule { ruleSample with id := "rule-x" }) = securityInitialState ∧
    securityReducer securityInitialState
        (.toggleSecurityRule "rule-x") = securityInitialState ∧
    securityReducer securityInitialState (.deleteSecurityRule "rule-x") =
      { securityInitialState with unsavedChanges := true } := by
  have h := missing_rule_id_frame securityInitialState "rule-x"
    (by simp [securityInitialState])
  exact ⟨h.1 { ruleSample with id := "rule-x" } rfl, h.2.1, h.2.2⟩

/-- `updateTransactionStatus` never changes the length of a transaction list. -/
theorem setTxStatusFirst_length (l : List Transaction) (tid : String) (st : TxStatus) :
    (setTxStatusFirst l tid st).length = l.length := by
  unfold setTxStatusFirst
  cases hfi : l.findIdx? (fun t => t.id = tid) with
  | none => rfl
  | some i =>
      cases hget : l[i]? with
      | none => simp [hget]
      | some t => simp [hget]

/-- `markAlertInvestigated` never changes the length of the alerts list. -/
theorem markAlertFirst_length (l : List FraudAlert) (aid : String) (fp : Bool) :
    (markAlertFirst l aid fp).length = l.length := by
  unfold markAlertFirst
  cases hfi : l.findIdx? (fun a => a.id = aid) with
  | none => rfl
  | some i =>
      cases hget : l[i]? with
      | none => simp [hget]
      | some a => simp [hget]

/-- One dispatched action preserves the real-time and alert caps. -/
theorem transactionReducer_preserves_caps (s : TransactionState) (a : TransactionAction)
    (h50 : s.realTimeTransactions.length ≤ 50) (h100 : s.alerts.length ≤ 100) :
    (transactionReducer s a).realTimeTransactions.length ≤ 50 ∧
    (transactionReducer s a).alerts.length ≤ 100 := by
  cases a with
  | fetchTransactionsStart => exact ⟨h50, h100⟩
  | fetchTransactionsSuccess txs c amt avg => exact ⟨h50, h100⟩
  | fetchTransactionsFailure msg => exact ⟨h50, h100⟩
  | addRealTimeTransaction t =>
      refine ⟨?_, h100⟩
      show (if (t :: s.realTimeTransactions).length > 50
          then (t :: s.realTimeTransactions).take 50
          else t :: s.realTimeTransactions).length ≤ 50
      split
      · simp only [List.length_take]
        omega
      · next hc => omega
  | addFraudAlert al =>
      refine ⟨h50, ?_⟩
      show (if (al :: s.alerts).length > 100
          then (al :: s.alerts).take 100
          else al :: s.alerts).length ≤ 100
      split
      · simp only [List.length_take]
        omega
      · next hc => omega
  | updateTransactionStatus tid st =>
      exact ⟨by simpa [transactionReducer, setTxStatusFirst_length] using h50, h100⟩
  | markAlertInvestigated aid fp =>
      exact ⟨h50, by simpa [transactionReducer, markAlertFirst_length] using h100⟩
  | updateFilters p => exact ⟨h50, h100⟩
  | clearRealTimeData => exact ⟨by simp [transactionReducer], by simp [transactionReducer]⟩

/-- C5: from the initial transaction-slice state, every sequence of dispatched
actions leaves at most 50 real-time transactions and at most 100 alerts
(addRealTimeTransaction and addFraudAlert prepend and truncate past the cap,
and no other action grows these lists). -/
theorem realTime_and_alerts_capped (actions : List TransactionAction) :
    (applyTransactionActions transactionInitialState actions).realTimeTransactions.length ≤ 50 ∧
    (applyTransactionActions transactionInitialState actions).alerts.length ≤ 100 := by
  suffices h : ∀ s : TransactionState, s.realTimeTransactions.length ≤ 50 →
      s.alerts.length ≤ 100 →
      (applyTransactionActions s actions).realTimeTransactions.length ≤ 50 ∧
      (applyTransactionActions s actions).alerts.length ≤ 100 by
    exact h transactionInitialState (by simp [transactionInitialState])
      (by simp [transactionInitialState])
  induction actions with
  | nil => exact fun s h1 h2 => ⟨h1, h2⟩
  | cons a rest ih =>
      intro s h1 h2
      have hstep := transactionReducer_preserves_caps s a h1 h2
      simpa [applyTransactionActions] using
        ih (transactionReducer s a) hstep.1 hstep.2

/-- C7 counterexample: when the response body's message field is present but
is the empty string, the dispatched error is not that message — the code tests
JS truthiness, so it falls through to the 401 branch. -/
theorem login_error_present_message_not_used :
    (some "" : Option String) = some "" ∧
    loginErrorMessage (some { message := some "", status := 401 }) ≠ "" ∧
    loginErrorMessage (some { message := some "", status := 401 }) =
      "Invalid email or password" := by
  refine ⟨rfl, ?_, rfl⟩
  simp [loginErrorMessage]

/-- C7 amended: the catch block dispatches exactly one loginFailure with no
retry, and its message is chosen in order: the response body's message field
when present and non-empty; otherwise 'Invalid email or password' on status
401; otherwise 'Server error. Please try again later.' on status at least 500;
otherwise 'Login failed. Please try again.'. -/
theorem login_failure_message_selection (response : Option LoginErrorResponse) :
    loginCatchDispatch response = [.loginFailure (loginErrorMessage response)] ∧
    (∀ r m, response = some r → r.message = some m → m ≠ "" →
      loginErrorMessage response = m) ∧
    (∀ r, response = some r → r.message.getD "" = "" → r.status = 401 →
      loginErrorMessage response = "Invalid email or password") ∧
    (∀ r, response = some r → r.message.getD "" = "" → r.status ≠ 401 →
      r.status ≥ 500 →
      loginErrorMessage response = "Server error. Please try again later.") ∧
    (∀ r, response = some r → r.message.getD "" = "" → r.status ≠ 401 →
      r.status < 500 →
      loginErrorMessage response = "Login failed. Please try again.") ∧
    (response = none → loginErrorMessage response = "Login failed. Please try again.") := by
  refine ⟨rfl, ?_, ?_, ?_, ?_, ?_⟩
  · intro r m hr hm hne
    subst hr
    simp [loginErrorMessage, hm, hne]
  · intro r hr hempty h401
    subst hr
    cases hm : r.message with
    | none => simp [loginErrorMessage, hm, h401]
    | some m =>
        rw [hm] at hempty
        simp only [Option.getD_some] at hempty
        simp [loginErrorMessage, hm, hempty, h401]
  · intro r hr hempty h401 h500
    subst hr
    cases hm : r.message with
    | none => simp [loginErrorMessage, hm, h401, h500]
    | some m =>
        rw [hm] at hempty
        simp only [Option.getD_some] at hempty
        simp [loginErrorMessage, hm, hempty, h401, h500]
  · intro r hr hempty h401 h500
    subst hr
    have hnot : ¬ r.status ≥ 500 := by omega
    cases hm : r.message with
    | none => simp [loginErrorMessage, hm, h401, hnot]
    | some m =>
        rw [hm] at hempty
        simp only [Option.getD_some] at hempty
        simp [loginErrorMessage, hm, hempty, h401, hnot]
  · intro h
    subst h
    rfl

/-- C7 amended witness: the theorem evaluated at one concrete response per
branch — a non-empty body message, a message-less 401, a message-less 503, a
message-less 400, and a missing response. -/
theorem login_failure_message_selection_witness :
    loginCatchDispatch (some { message := some "Account locked", status := 403 }) =
      [.loginFailure "Account locked"] ∧
    loginErrorMessage (some { message := some "Account locked", status := 403 }) =
      "Account locked" ∧
    loginErrorMessage (some { message := none, status := 401 }) =
      "Invalid email or password" ∧
    loginErrorMessage (some { message := none, status := 503 }) =
      "Server error. Please try again later." ∧
    loginErrorMessage (some { message := none, status := 400 }) =
      "Login failed. Please try again." ∧
    loginErrorMessage none = "Login failed. Please try again." := by
  refine ⟨?_, ?_, ?_, ?_, ?_, ?_⟩
  · have h := (login_failure_message_selection
      (some { message := some "Account locked", status := 403 })).2.1
      { message := some "Account locked", status := 403 } "Account locked" rfl rfl
      (by decide)
    rw [loginCatchDispatch, h]
  · exact (login_failure_message_selection
      (some { message := some "Account locked", status := 403 })).2.1
      _ "Account locked" rfl rfl (by decide)
  · exact (login_failure_message_selection
      (some { message := none, status := 401 })).2.2.1 _ rfl rfl rfl
  · exact (login_failure_message_selection
      (some { message := none, status := 503 })).2.2.2.1 _ rfl rfl
      (by decide) (by decide)
  · exact (login_failure_message_selection
      (some { message := none, status := 400 })).2.2.2.2.1 _ rfl rfl
      (by decide) (by decide)
  · exact (login_failure_message_selection none).2.2.2.2.2 rfl

/-- Mount-then-cleanup of one interval timer restores the active timer table
when all pre-existing ids are below the fresh id. -/
theorem mount_cleanup_restores_active (env : TimerEnv) (ms : Nat)
    (h : env.FreshIds) :
    (clearIntervalTimer (setIntervalTimer env ms).2 (setIntervalTimer env ms).1).active =
      env.active := by
  simp only [setIntervalTimer, clearIntervalTimer, List.filter_cons]
  have hhead : (decide (env.nextId ≠ env.nextId)) = false := by simp
  rw [hhead]
  simp only [Bool.false_eq_true, if_neg (by simp : ¬ False)]
  exact List.filter_eq_self.mpr (fun t ht => by
    have := h t ht
    simp only [decide_eq_true_eq]
    omega)

/-- C9: each polling effect's cleanup clears exactly the interval timer the
effect created: mounting the Dashboard, FraudAnalytics or TransactionMonitor
effect and then running its returned cleanup leaves the set of active timers
exactly as before, so no timer outlives its component. -/
theorem polling_timers_cleared_on_teardown (env : TimerEnv)
    (autoRefreshFA autoRefreshTM : Bool) (hfresh : env.FreshIds) :
    ((dashboardEffect env).2 (dashboardEffect env).1).active = env.active ∧
    ((fraudAnalyticsRefreshEffect autoRefreshFA env).2
      ((fraudAnalyticsRefreshEffect autoRefreshFA env).1)).active = env.active ∧
    ((transactionMonitorRefreshEffect autoRefreshTM env).2
      ((transactionMonitorRefreshEffect autoRefreshTM env).1)).active = env.active := by
  refine ⟨?_, ?_, ?_⟩
  · exact mount_cleanup_restores_active env 5000 hfresh
  · cases autoRefreshFA with
    | false => rfl
    | true => exact mount_cleanup_restores_active env 30000 hfresh
  · cases autoRefreshTM with
    | false => rfl
    | true => exact mount_cleanup_restores_active env 2000 hfresh

/-- C9 witness: the theorem evaluated on the empty timer table, with
auto-refresh on in FraudAnalytics and off in TransactionMonitor. -/
theorem polling_timers_cleared_on_teardown_witness :
    TimerEnv.FreshIds ⟨0, []⟩ ∧
    ((dashboardEffect ⟨0, []⟩).2 (dashboardEffect ⟨0, []⟩).1).active = [] ∧
    ((fraudAnalyticsRefreshEffect true ⟨0, []⟩).2
      ((fraudAnalyticsRefreshEffect true ⟨0, []⟩).1)).active = [] ∧
    ((transactionMonitorRefreshEffect false ⟨0, []⟩).2
      ((transactionMonitorRefreshEffect false ⟨0, []⟩).1)).active = [] := by
  have hfresh : TimerEnv.FreshIds ⟨0, []⟩ := by
    intro t ht
    simp at ht
  have h := polling_timers_cleared_on_teardown ⟨0, []⟩ true false hfresh
  exact ⟨hfresh, h.1, h.2.1, h.2.2⟩

/-- C10: the Dashboard effect registers its simulated-refresh timer at the
constant interval 5 s (5000 ms) and the FraudAnalytics effect at the constant
interval 30 s (30000 ms); mounting either effect never alters the interval of
any already-running timer, and clearInterval only removes timers, so an
interval never changes while its timer runs. -/
theorem polling_timer_intervals (env : TimerEnv) :
    (dashboardEffect env).1.active = (env.nextId, 5 * 1000) :: env.active ∧
    (fraudAnalyticsRefreshEffect true env).1.active =
      (env.nextId, 30 * 1000) :: env.active ∧
    (∀ t ∈ env.active, t ∈ (dashboardEffect env).1.active ∧
      t ∈ (fraudAnalyticsRefreshEffect true env).1.active) ∧
    (∀ id, ∀ t ∈ (clearIntervalTimer env id).active, t ∈ env.active) := by
  refine ⟨rfl, rfl, ?_, ?_⟩
  · intro t ht
    exact ⟨List.mem_cons_of_mem _ ht, List.mem_cons_of_mem _ ht⟩
  · intro id t ht
    exact List.mem_of_mem_filter ht

/-- C10 witness: with one timer of interval 7 ms already running, mounting the
Dashboard and FraudAnalytics effects keeps it with interval 7, and clearing an
absent id keeps it active. -/
theorem polling_timer_intervals_witness :
    (0, 7) ∈ (dashboardEffect ⟨1, [(0, 7)]⟩).1.active ∧
    (0, 7) ∈ (fraudAnalyticsRefreshEffect true ⟨1, [(0, 7)]⟩).1.active ∧
    (0, 7) ∈ (TimerEnv.mk 1 [(0, 7)]).active := by
  have h := polling_timer_intervals ⟨1, [(0, 7)]⟩
  have hmem : ((0, 7) : Nat × Nat) ∈ [((0 : Nat), (7 : Nat))] := by simp
  exact ⟨(h.2.2.1 (0, 7) hmem).1, (h.2.2.1 (0, 7) hmem).2,
    h.2.2.2 5 (0, 7) (by decide)⟩
